import Mathlib

/-
Verification of the WebUS-Crawlelus news crawler (src/main.py) against its
natural-language specification.

Shallow embedding notes.
* The HTTP transport (requests.get + raise_for_status) is an external
  collaborator; it is modelled as a function `String → Option Soup`, where
  `none` stands for any `requests.RequestException` (timeout, connection
  failure, or non-2xx status raised by raise_for_status).
* The HTML parse tree (BeautifulSoup) is an external collaborator; a parsed
  document `Soup` is modelled by the results of the queries the crawler
  performs on it: `select_one` per CSS selector (an association list from
  selector string to the first matching element, absent = no match),
  the number of `<img>` elements, and the hrefs of `<a href=...>` elements.
  A found bs4 Tag is truthy (bs4 defines Tag truthiness as always-true), so
  `if elem:` is modelled as "a match was found".
* `datetime.fromisoformat` is an external stdlib routine; it is a parameter
  `iso : String → Option String` returning the `.isoformat()` serialization
  of the parsed value, `none` standing for ValueError.  `datetime.now()
  .isoformat()` is a parameter `now : String`.
* Python sets (queue, visited, link sets) are modelled as duplicate-free
  lists; `set.pop`'s arbitrary choice is modelled by an oracle of indices,
  one per loop iteration, so every possible pop order is representable.
* Machine-level details (file bytes vs characters) are modelled at the
  character level; all strings involved are ASCII.
-/

/-- Does the character list `l` contain `sub` as a contiguous sublist?
Used to model Python's `in` on strings and `re.search` with a literal
pattern (the crawler's patterns contain no regex metacharacters). -/
def listContainsSub (sub : List Char) : List Char → Bool
  | [] => sub.isEmpty
  | c :: cs => sub.isPrefixOf (c :: cs) || listContainsSub sub cs

/-- Python `sub in s` for strings. -/
def strContains (s sub : String) : Bool :=
  listContainsSub sub.toList s.toList

/-- Drop everything up to and including the first occurrence of `sub`;
`none` when `sub` does not occur. -/
def dropThroughSub (sub : List Char) : List Char → Option (List Char)
  | [] => if sub.isEmpty then some [] else none
  | c :: cs =>
    if sub.isPrefixOf (c :: cs) then some ((c :: cs).drop sub.length)
    else dropThroughSub sub cs

/-- Model of `urllib.parse.urlparse(url).netloc` for URLs written as
`scheme://host/...`: the part after `"://"` up to the first `/`, `?` or
`#`; the empty string when the URL has no `"://"` (urlparse yields an
empty netloc when no `//` authority is present). -/
def netloc (url : String) : String :=
  match dropThroughSub "://".toList url.toList with
  | none => ""
  | some rest => String.mk (rest.takeWhile (fun c => !(c == '/' || c == '?' || c == '#')))

/-- Model of `urllib.parse.urlparse(url).path` for URLs written as
`scheme://host/path?query#fragment` (the path starts at the first `/`
after the authority and stops before `?` or `#`); for a URL without
`"://"` the whole string up to `?`/`#` is the path. -/
def urlPath (url : String) : String :=
  match dropThroughSub "://".toList url.toList with
  | none => String.mk (url.toList.takeWhile (fun c => !(c == '?' || c == '#')))
  | some rest =>
    String.mk (((rest.dropWhile (fun c => !(c == '/' || c == '?' || c == '#'))).takeWhile
      (fun c => !(c == '?' || c == '#'))))

/-- Python `s.lower()` (ASCII case folding; all strings involved are
ASCII). -/
def strLower (s : String) : String :=
  String.mk (s.toList.map Char.toLower)

/-- Python `s.endswith(suffix)`. -/
def strEndsWith (s suffix : String) : Bool :=
  suffix.toList.isSuffixOf s.toList

/-- `valid_domains` from `NewsCrawler.is_valid_article_url`. -/
def valid_domains : List String := ["novinky.cz", "idnes.cz", "ctk.cz"]

/-- `file_extensions` from `NewsCrawler.is_valid_article_url`. -/
def file_extensions : List String := [".jpg", ".jpeg", ".png", ".gif", ".pdf", ".mp4"]

/-- `article_patterns` from `NewsCrawler.is_valid_article_url`; the regex
patterns are literal substrings, so `re.search(pattern, url)` is substring
containment. -/
def article_patterns : List (String × String) :=
  [("novinky.cz", "/clanek/"), ("idnes.cz", "/zpravy/"), ("ctk.cz", "/clanek/")]

/-- `NewsCrawler.is_valid_article_url` (src/main.py lines 34-59):
domain substring match on the netloc, denylisted-extension check on the
lowercased full URL (`url.lower().endswith(ext)`), and per-domain pattern
search on the full URL (`re.search(pattern, url)` guarded by
`site in parsed_url.netloc`); returns the conjunction
`domain_match and is_article and not is_file`. -/
def is_valid_article_url (url : String) : Bool :=
  let domain_match := valid_domains.any (fun d => strContains (netloc url) d)
  let is_file := file_extensions.any (fun ext => strEndsWith (strLower url) ext)
  let is_article := article_patterns.any
    (fun p => strContains (netloc url) p.1 && strContains url p.2)
  domain_match && is_article && !is_file

/-- Acceptance predicate following the claim's words, for comparison with
`is_valid_article_url`: the denylisted-extension check is applied to the
URL's *path* (case-insensitively), the domain check to the host, the
matched domain's pattern to the URL. -/
def spec_is_valid_article_url (url : String) : Bool :=
  let domain_match := valid_domains.any (fun d => strContains (netloc url) d)
  let path_is_file := file_extensions.any (fun ext => strEndsWith (strLower (urlPath url)) ext)
  let is_article := article_patterns.any
    (fun p => strContains (netloc url) p.1 && strContains url p.2)
  domain_match && !path_is_file && is_article

/-- Acceptance predicate following the amended claim's words: same as the
claim except the extension denylist is checked against the whole lowercased
URL string, not just its path. -/
def amended_is_valid_article_url (url : String) : Bool :=
  let domain_match := valid_domains.any (fun d => strContains (netloc url) d)
  let url_is_file := file_extensions.any (fun ext => strEndsWith (strLower url) ext)
  let is_article := article_patterns.any
    (fun p => strContains (netloc url) p.1 && strContains url p.2)
  domain_match && !url_is_file && is_article

/-- A URL whose path has no denylisted extension but whose query string
ends in one: the claim's path-based reading accepts it, the code rejects
it. -/
def urlC8 : String := "https://www.idnes.cz/zpravy/y?x=.jpg"

/-- C8 counterexample: `https://www.idnes.cz/zpravy/y?x=.jpg` satisfies all
three conditions of the claim as stated (host contains `idnes.cz`, path
`/zpravy/y` does not end with a denylisted extension, URL matches the
`idnes.cz` pattern `/zpravy/`), yet `is_valid_article_url` rejects it,
because the code tests `url.lower().endswith(ext)` on the whole URL. -/
theorem is_valid_article_url_path_claim_false :
    spec_is_valid_article_url urlC8 = true ∧ is_valid_article_url urlC8 = false := by
  constructor <;> decide

/-- C8 (amended): `is_valid_article_url` accepts exactly when the host
contains an allowed domain, the whole lowercased URL string does not end
with a denylisted extension, and the URL matches the matched domain's
article pattern; and the claim's three boundary cases evaluate as stated:
`https://www.novinky.cz/clanek/x.jpg` rejected, `https://www.idnes.cz/zpravy/y`
accepted, `https://www.example.com/clanek/x` rejected. -/
theorem is_valid_article_url_amended :
    (∀ url, is_valid_article_url url = amended_is_valid_article_url url)
    ∧ is_valid_article_url "https://www.novinky.cz/clanek/x.jpg" = false
    ∧ is_valid_article_url "https://www.idnes.cz/zpravy/y" = true
    ∧ is_valid_article_url "https://www.example.com/clanek/x" = false := by
  refine ⟨fun url => ?_, by decide, by decide, by decide⟩
  unfold is_valid_article_url amended_is_valid_article_url
  cases valid_domains.any (fun d => strContains (netloc url) d) <;>
    cases file_extensions.any (fun ext => strEndsWith (strLower url) ext) <;>
      cases article_patterns.any
        (fun p => strContains (netloc url) p.1 && strContains url p.2) <;>
    rfl

/-- A parsed HTML element, as seen through the queries the crawler makes:
its attribute map (`Tag.get`), its `get_text(strip=True)` text, and its
`get_text(separator=' ', strip=True)` text (used only by
`extract_content`). -/
structure Elem where
  attrs : List (String × String)
  text : String
  textSep : String
deriving DecidableEq, Repr

/-- A parsed document (BeautifulSoup object), modelled by the results of
the queries the crawler performs: `selectorResults` maps each CSS selector
to the first matching element (absent = `select_one` returns None),
`imgCount` is `len(soup.find_all('img'))`, and `links` lists the `href`
values of `soup.find_all('a', href=True)` in document order. -/
structure Soup where
  selectorResults : List (String × Elem)
  imgCount : Nat
  links : List String
deriving DecidableEq, Repr

/-- `soup.select_one(sel)`. -/
def select_one (soup : Soup) (sel : String) : Option Elem :=
  (soup.selectorResults.find? (fun p => p.1 == sel)).map Prod.snd

/-- `elem.get(key)`: the attribute's value, None when absent. -/
def getAttr (e : Elem) (key : String) : Option String :=
  (e.attrs.find? (fun p => p.1 == key)).map Prod.snd

/-- Python `a or b` where `a` is an optional string (None or falsy empty
string falls through to `b`). -/
def pyOr (a b : Option String) : Option String :=
  match a with
  | some s => if s = "" then b else some s
  | none => b

/-- Python `a or b` where `b` is a string (always yields a string). -/
def pyOrStr (a : Option String) (b : String) : String :=
  match a with
  | some s => if s = "" then b else s
  | none => b

/-- `title_selectors` from `NewsCrawler.extract_title`. -/
def title_selectors : List String := ["h1.article-title", "h1.title", "h1", "title"]

/-- The selector loop of `extract_title`: the text of the first selector
with a match, `none` if no selector matches. -/
def firstSelText (soup : Soup) : List String → Option String
  | [] => none
  | sel :: rest =>
    match select_one soup sel with
    | some e => some e.text
    | none => firstSelText soup rest

/-- `NewsCrawler.extract_title` (src/main.py lines 75-88): try the
selectors in order, return the found element's stripped text, else the
sentinel. -/
def extract_title (soup : Soup) : String :=
  (firstSelText soup title_selectors).getD "Nepodařilo se najít nadpis"

/-- `category_selectors` from `NewsCrawler.extract_category`. -/
def category_selectors : List String :=
  ["span.category", "div.rubrika", "meta[property=\"article:section\"]"]

/-- The selector loop of `extract_category`: for the first selector with a
match return `elem.get('content') or elem.get_text(strip=True)`. -/
def firstCatText (soup : Soup) : List String → Option String
  | [] => none
  | sel :: rest =>
    match select_one soup sel with
    | some e => some (pyOrStr (getAttr e "content") e.text)
    | none => firstCatText soup rest

/-- `NewsCrawler.extract_category` (src/main.py lines 90-102). -/
def extract_category (soup : Soup) : String :=
  (firstCatText soup category_selectors).getD "Kategorie nenalezena"

/-- `comments_selectors` from `NewsCrawler.extract_comments_count`. -/
def comments_selectors : List String :=
  ["span.comments-count", "div.comments-count", "meta[itemprop=\"commentCount\"]"]

/-- `re.sub(r'\D', '', s)`: keep only the digits. -/
def digitsOf (s : String) : String :=
  String.mk (s.toList.filter Char.isDigit)

/-- `int(d)` on an all-digit string (Python ints are unbounded, so `Nat`
is exact); the caller only uses it on a non-empty digit string. -/
def natOfDigits (d : String) : Nat :=
  d.toList.foldl (fun n c => n * 10 + (c.toNat - 48)) 0

/-- The selector loop of `extract_comments_count`: for each matching
selector, strip the non-digits from `elem.get('content',
elem.get_text(strip=True))` and parse; `int('')` raises ValueError, which
the code catches and falls through to the next selector. -/
def firstCommentsCount (soup : Soup) : List String → Option Nat
  | [] => none
  | sel :: rest =>
    match select_one soup sel with
    | some e =>
      let raw := (getAttr e "content").getD e.text
      if (digitsOf raw).isEmpty then firstCommentsCount soup rest
      else some (natOfDigits (digitsOf raw))
    | none => firstCommentsCount soup rest

/-- `NewsCrawler.extract_comments_count` (src/main.py lines 104-119). -/
def extract_comments_count (soup : Soup) : Nat :=
  (firstCommentsCount soup comments_selectors).getD 0

/-- `content_selectors` from `NewsCrawler.extract_content`. -/
def content_selectors : List String :=
  ["div.article-content", "div.content", "article", "div.text"]

/-- The selector loop of `extract_content`:
`elem.get_text(separator=' ', strip=True)` of the first match. -/
def firstContentText (soup : Soup) : List String → Option String
  | [] => none
  | sel :: rest =>
    match select_one soup sel with
    | some e => some e.textSep
    | none => firstContentText soup rest

/-- `NewsCrawler.extract_content` (src/main.py lines 121-134). -/
def extract_content (soup : Soup) : String :=
  (firstContentText soup content_selectors).getD "Obsah nenalezen"

/-- `date_selectors` from `NewsCrawler.extract_date`. -/
def date_selectors : List String :=
  ["meta[property=\"article:published_time\"]", "time[datetime]", "meta[name=\"date\"]"]

/-- The selector loop of `extract_date`.  For a matching element,
`date_str = elem.get('content') or elem.get('datetime')`; when both are
None (or content falsy and datetime absent) `date_str` is None and
`date_str.replace('Z', '+00:00')` raises an uncaught AttributeError
(only ValueError and TypeError are caught), modelled as `Except.error`.
When `datetime.fromisoformat` (the `iso` parameter) fails with ValueError
the loop falls through to the next selector. -/
def dateFromList (iso : String → Option String) (soup : Soup) :
    List String → Except String (Option String)
  | [] => Except.ok none
  | sel :: rest =>
    match select_one soup sel with
    | none => dateFromList iso soup rest
    | some e =>
      match pyOr (getAttr e "content") (getAttr e "datetime") with
      | none => Except.error "AttributeError"
      | some ds =>
        match iso (ds.replace "Z" "+00:00") with
        | some d => Except.ok (some d)
        | none => dateFromList iso soup rest

/-- `NewsCrawler.extract_date` (src/main.py lines 136-153): first parsed
candidate date, else `datetime.now().isoformat()` (the `now` parameter);
propagates the AttributeError case. -/
def extract_date (iso : String → Option String) (now : String) (soup : Soup) :
    Except String String :=
  match dateFromList iso soup date_selectors with
  | Except.error e => Except.error e
  | Except.ok (some d) => Except.ok d
  | Except.ok none => Except.ok now

/-- One extracted article record, the dict built by
`NewsCrawler.extract_article_data`. -/
structure Article where
  url : String
  title : String
  category : String
  comments_count : Nat
  images_count : Nat
  content : String
  created_at : String
  source_website : String
deriving DecidableEq, Repr

/-- `NewsCrawler.extract_article_data` (src/main.py lines 61-73); the
result is `Except.error` exactly when `extract_date` raises its uncaught
AttributeError. -/
def extract_article_data (iso : String → Option String) (now : String)
    (url : String) (soup : Soup) : Except String Article :=
  match extract_date iso now soup with
  | Except.error e => Except.error e
  | Except.ok d => Except.ok
      { url := url
        title := extract_title soup
        category := extract_category soup
        comments_count := extract_comments_count soup
        images_count := soup.imgCount
        content := extract_content soup
        created_at := d
        source_website := netloc url }

/-- A `fromisoformat` oracle that rejects every string (every candidate
date is unparseable). -/
def iso0 : String → Option String := fun _ => none

/-- A document whose only query hit is a date meta element that has
neither a `content` nor a `datetime` attribute. -/
def soupNoDateAttrs : Soup :=
  { selectorResults :=
      [("meta[property=\"article:published_time\"]",
        { attrs := [("property", "article:published_time")], text := "", textSep := "" })]
    imgCount := 0
    links := [] }

/-- C3: on a document whose first matching date element has neither a
`content` nor a `datetime` attribute, `extract_article_data` does not
return a record at all: `date_str` is None and
`date_str.replace('Z', '+00:00')` raises an AttributeError that the code
does not catch (it only catches ValueError and TypeError), so extraction
aborts instead of falling back to the crawl-time date. -/
theorem extract_article_data_raises_attribute_error :
    extract_article_data iso0 "2026-01-01T00:00:00"
      "https://www.novinky.cz/clanek/d" soupNoDateAttrs
      = Except.error "AttributeError" := by
  rfl

/-- The first match's text over the title selectors (spec formulation of
the fallback chain: first *found* candidate wins). -/
def firstMatchTitleText (soup : Soup) : Option String :=
  (title_selectors.filterMap (fun sel => (select_one soup sel).map Elem.text)).head?

/-- The first *non-empty* match's text over the title selectors, following
the claim's words, for comparison with `extract_title`. -/
def firstNonEmptyTitleText (soup : Soup) : Option String :=
  ((title_selectors.filterMap (fun sel => (select_one soup sel).map Elem.text)).filter
    (fun t => !(t == ""))).head?

/-- A document whose specific title marker matches an element with empty
stripped text (e.g. `<h1 class="article-title"><img/></h1>`) while the
generic `h1` has real text. -/
def soupEmptyTitle : Soup :=
  { selectorResults :=
      [("h1.article-title", { attrs := [], text := "", textSep := "" }),
       ("h1", { attrs := [], text := "Nadpis", textSep := "Nadpis" })]
    imgCount := 0
    links := [] }

/-- C10 counterexample: on a document whose first matching title candidate
has empty text, the first non-empty match's text is "Nadpis" (from the
generic `h1`), but `extract_title` returns the empty text of the first
match — the code does not skip empty-text matches as the claim states. -/
theorem extract_title_nonempty_claim_false :
    firstNonEmptyTitleText soupEmptyTitle = some "Nadpis"
    ∧ extract_title soupEmptyTitle = "" := by
  constructor <;> decide

/-- `firstSelText` is the head of the per-selector match texts. -/
theorem firstSelText_eq_firstMatch (soup : Soup) (sels : List String) :
    firstSelText soup sels
      = (sels.filterMap (fun sel => (select_one soup sel).map Elem.text)).head? := by
  induction sels with
  | nil => rfl
  | cons sel rest ih =>
    unfold firstSelText
    cases h : select_one soup sel with
    | none => simpa [List.filterMap_cons, h] using ih
    | some e => simp [List.filterMap_cons, h]

/-- A document with both a specific and a generic title marker, the
specific one non-empty. -/
def soupBothTitles : Soup :=
  { selectorResults :=
      [("h1.article-title", { attrs := [], text := "Specific", textSep := "Specific" }),
       ("h1", { attrs := [], text := "Generic", textSep := "Generic" })]
    imgCount := 0
    links := [] }

/-- A document where no title candidate matches. -/
def soupNoTitle : Soup := { selectorResults := [], imgCount := 0, links := [] }

/-- C10 (amended): `extract_title` tries the candidate selectors in order
(specific heading, generic headings, document title) and returns the text
of the first *matching* element — even when that text is empty — and the
"not found" sentinel when no candidate matches, never an exception; in
particular, with both a specific and a generic marker present the specific
one's text is returned, and with no candidate matching the sentinel is
returned. -/
theorem extract_title_first_match_amended :
    (∀ soup : Soup,
      extract_title soup = (firstMatchTitleText soup).getD "Nepodařilo se najít nadpis")
    ∧ extract_title soupBothTitles = "Specific"
    ∧ extract_title soupNoTitle = "Nepodařilo se najít nadpis" := by
  refine ⟨fun soup => ?_, by decide, by decide⟩
  unfold extract_title firstMatchTitleText
  rw [firstSelText_eq_firstMatch]

/-- One escaped character of Python's `json` encoder with
`ensure_ascii=False`: backslash, quote, and the control characters are
escaped (lower-case hex for the generic `\u00xx` form), everything else is
passed through. -/
def jsonEscapeChar (c : Char) : String :=
  if c = '"' then "\\\""
  else if c = '\\' then "\\\\"
  else if c = '\n' then "\\n"
  else if c = '\t' then "\\t"
  else if c = '\r' then "\\r"
  else if c.toNat = 8 then "\\b"
  else if c.toNat = 12 then "\\f"
  else if c.toNat < 32 then
    "\\u00"
      ++ String.singleton (if c.toNat / 16 < 10 then Char.ofNat (48 + c.toNat / 16)
           else Char.ofNat (87 + c.toNat / 16))
      ++ String.singleton (if c.toNat % 16 < 10 then Char.ofNat (48 + c.toNat % 16)
           else Char.ofNat (87 + c.toNat % 16))
  else String.singleton c

/-- A JSON string literal as Python's `json.dump(..., ensure_ascii=False)`
writes it. -/
def jsonString (s : String) : String :=
  "\"" ++ String.join (s.toList.map jsonEscapeChar) ++ "\""

/-- The key/value lines of one article object, in the dict's insertion
order (src/main.py lines 63-72). -/
def articleFields (a : Article) : List (String × String) :=
  [("url", jsonString a.url),
   ("title", jsonString a.title),
   ("category", jsonString a.category),
   ("comments_count", toString a.comments_count),
   ("images_count", toString a.images_count),
   ("content", jsonString a.content),
   ("created_at", jsonString a.created_at),
   ("source_website", jsonString a.source_website)]

/-- One article object as `json.dump(..., ensure_ascii=False, indent=2)`
lays it out inside the top-level array. -/
def serializeArticle (a : Article) : String :=
  "  \x7b\n"
    ++ String.intercalate ",\n"
        ((articleFields a).map (fun p => "    " ++ jsonString p.1 ++ ": " ++ p.2))
    ++ "\n  \x7d"

/-- `json.dump(self.articles, f, ensure_ascii=False, indent=2)`: the text
written for the whole collection. -/
def serializeArticles : List Article → String
  | [] => "[]"
  | a :: rest =>
    "[\n" ++ String.intercalate ",\n" ((a :: rest).map serializeArticle) ++ "\n]"

/-- The crawler's mutable state: the `queue` and `visited_urls` sets
(duplicate-free lists), the in-memory `articles` collection, the contents
of `articles.json` (`none` = the file does not exist), plus two pieces of
instrumentation: `fetchLog` records every `requests.get` call in order,
and `saveCalls` counts the invocations of `save_json`. -/
structure CrawlState where
  queue : List String
  visited : List String
  articles : List Article
  file : Option String
  fetchLog : List String
  saveCalls : Nat
deriving DecidableEq, Repr

/-- The characters of `s` past the first `n` (character-level model of
what survives at the end of a text file whose first `n` positions are
overwritten; all strings involved are ASCII). -/
def strDropChars (s : String) (n : Nat) : String :=
  String.mk (s.toList.drop n)

/-- The length of `s` in characters. -/
def strCharLen (s : String) : Nat :=
  s.toList.length

/-- `NewsCrawler.save_json` (src/main.py lines 166-173):
`open(self.articles_file, 'r+')` requires the file to exist (otherwise
FileNotFoundError is caught and logged: nothing is written) and does not
truncate: `json.dump` writes the serialization from position 0 and any
prior contents beyond its length survive. -/
def save_json (s : CrawlState) : CrawlState :=
  let s1 : CrawlState := { s with saveCalls := s.saveCalls + 1 }
  match s1.file with
  | none => s1
  | some old =>
    { s1 with file := some (serializeArticles s1.articles
        ++ strDropChars old (strCharLen (serializeArticles s1.articles))) }

/-- `NewsCrawler.save_article` (src/main.py lines 155-164): append only
when no stored article has the same url; checkpoint via `save_json` when
the new length is a multiple of 50. -/
def save_article (s : CrawlState) (a : Article) : CrawlState :=
  if s.articles.any (fun b => b.url == a.url) then s
  else if (s.articles ++ [a]).length % 50 == 0 then
    save_json { s with articles := s.articles ++ [a] }
  else { s with articles := s.articles ++ [a] }

@[simp] theorem save_json_queue (s : CrawlState) : (save_json s).queue = s.queue := by
  unfold save_json
  cases s.file <;> rfl

@[simp] theorem save_json_visited (s : CrawlState) : (save_json s).visited = s.visited := by
  unfold save_json
  cases s.file <;> rfl

@[simp] theorem save_json_articles (s : CrawlState) : (save_json s).articles = s.articles := by
  unfold save_json
  cases s.file <;> rfl

@[simp] theorem save_json_fetchLog (s : CrawlState) : (save_json s).fetchLog = s.fetchLog := by
  unfold save_json
  cases s.file <;> rfl

@[simp] theorem save_json_saveCalls (s : CrawlState) :
    (save_json s).saveCalls = s.saveCalls + 1 := by
  unfold save_json
  cases s.file <;> rfl

@[simp] theorem save_article_queue (s : CrawlState) (a : Article) :
    (save_article s a).queue = s.queue := by
  unfold save_article
  split
  · rfl
  · split
    · simp
    · rfl

@[simp] theorem save_article_visited (s : CrawlState) (a : Article) :
    (save_article s a).visited = s.visited := by
  unfold save_article
  split
  · rfl
  · split
    · simp
    · rfl

@[simp] theorem save_article_fetchLog (s : CrawlState) (a : Article) :
    (save_article s a).fetchLog = s.fetchLog := by
  unfold save_article
  split
  · rfl
  · split
    · simp
    · rfl

/-- The articles after `save_article`: unchanged on a duplicate url,
appended otherwise. -/
theorem save_article_articles (s : CrawlState) (a : Article) :
    (save_article s a).articles
      = if s.articles.any (fun b => b.url == a.url) then s.articles
        else s.articles ++ [a] := by
  unfold save_article
  split
  · simp_all
  · split <;> simp_all

/-- Set insertion for a Python set modelled as a duplicate-free list. -/
def insertSet (l : List String) (x : String) : List String :=
  if x ∈ l then l else l ++ [x]

/-- The crawler state right after `NewsCrawler.__init__` (src/main.py
lines 13-32): `queue = set(start_urls)`, empty visited set, empty
collection; `file0` is the pre-existing contents of `articles.json`
(`none` = absent — `__init__` creates the output directory but never the
file). -/
def initState (seeds : List String) (file0 : Option String) : CrawlState :=
  { queue := seeds.foldl insertSet []
    visited := []
    articles := []
    file := file0
    fetchLog := []
    saveCalls := 0 }

/-- `find?` over an append scans the left part first. -/
theorem find_append {α : Type} (p : α → Bool) (l₁ l₂ : List α) :
    (l₁ ++ l₂).find? p = (l₁.find? p).orElse (fun _ => l₂.find? p) := by
  induction l₁ with
  | nil => rfl
  | cons x xs ih =>
    cases h : p x with
    | true => simp [List.find?_cons, h]
    | false => simp [List.find?_cons, h, ih]

/-- `orElse` on options is associative. -/
theorem orElse_assoc {α : Type} (a b c : Option α) :
    ((a.orElse fun _ => b).orElse fun _ => c)
      = a.orElse (fun _ => b.orElse fun _ => c) := by
  cases a <;> rfl

/-- Looking a url up in the collection after `save_article` is the same as
looking it up in the collection with the record appended: when the record
was rejected as a duplicate, the earlier record with that url is found
either way. -/
theorem save_article_find (s : CrawlState) (a : Article) (u : String) :
    ((save_article s a).articles).find? (fun b => b.url == u)
      = (s.articles ++ [a]).find? (fun b => b.url == u) := by
  rw [save_article_articles]
  by_cases h : s.articles.any (fun b => b.url == a.url) = true
  · simp only [h, if_true]
    rw [find_append]
    cases hf : s.articles.find? (fun b => b.url == u) with
    | some x => rfl
    | none =>
      obtain ⟨b, hb, hbu⟩ := List.any_eq_true.mp h
      have hbne : ∀ x ∈ s.articles, ¬ (x.url == u) = true := by
        simpa [List.find?_eq_none] using hf
      have hau : (a.url == u) = false := by
        apply beq_eq_false_iff_ne.mpr
        intro heq
        exact hbne b hb (by simp [beq_iff_eq.mp hbu, heq])
      simp [List.find?, hau]
  · simp [h]

/-- `save_article` keeps the stored urls pairwise distinct. -/
theorem save_article_nodup (s : CrawlState) (a : Article)
    (h : (s.articles.map Article.url).Nodup) :
    ((save_article s a).articles.map Article.url).Nodup := by
  rw [save_article_articles]
  by_cases hd : s.articles.any (fun b => b.url == a.url) = true
  · simpa [hd] using h
  · have hnotmem : a.url ∉ s.articles.map Article.url := by
      intro hmem
      obtain ⟨b, hb, hbu⟩ := List.mem_map.mp hmem
      exact hd (List.any_eq_true.mpr ⟨b, hb, beq_iff_eq.mpr hbu⟩)
    rw [if_neg hd, List.map_append]
    refine List.Nodup.append h (List.nodup_singleton _) ?_
    intro x hx hxa
    simp only [List.map_cons, List.map_nil, List.mem_singleton] at hxa
    exact hnotmem (hxa ▸ hx)

/-- C5: starting from the crawler's initial (empty) collection, after any
sequence of `save_article` calls the stored record for a url `u` is
exactly the first record in the sequence carrying that url (first write
wins, later records with the same url are discarded), and the stored urls
are pairwise distinct. -/
theorem store_first_write_wins (seeds : List String) (file0 : Option String)
    (adds : List Article) (u : String) :
    ((adds.foldl save_article (initState seeds file0)).articles).find?
        (fun b => b.url == u) = adds.find? (fun b => b.url == u)
    ∧ ((adds.foldl save_article (initState seeds file0)).articles.map Article.url).Nodup := by
  have key : ∀ (l : List Article) (s : CrawlState),
      ((l.foldl save_article s).articles).find? (fun b => b.url == u)
        = (s.articles ++ l).find? (fun b => b.url == u) := by
    intro l
    induction l with
    | nil => intro s; simp
    | cons a rest ih =>
      intro s
      rw [List.foldl_cons, ih, find_append, save_article_find, find_append,
        show (a :: rest) = [a] ++ rest from rfl]
      conv_rhs => rw [← List.append_assoc, find_append, find_append]
  have nodup : ∀ (l : List Article) (s : CrawlState),
      (s.articles.map Article.url).Nodup →
      ((l.foldl save_article s).articles.map Article.url).Nodup := by
    intro l
    induction l with
    | nil => intro s h; simpa using h
    | cons a rest ih => intro s h; exact ih _ (save_article_nodup s a h)
  refine ⟨?_, nodup adds _ (by simp [initState])⟩
  simpa [initState] using key adds (initState seeds file0)

/-- C7: a `save_article` call invokes the checkpoint (`save_json`) exactly
when the record is actually inserted (its url is not already stored) and
the insertion makes the collection's size a multiple of the batch size 50;
a duplicate url (size unchanged) never triggers a checkpoint. -/
theorem save_article_checkpoint_exactly (s : CrawlState) (a : Article) :
    (save_article s a).saveCalls
      = s.saveCalls
        + (if s.articles.any (fun b => b.url == a.url) = false
              ∧ (s.articles.length + 1) % 50 = 0 then 1 else 0) := by
  unfold save_article
  by_cases h1 : s.articles.any (fun b => b.url == a.url) = true
  · simp [h1]
  · by_cases h2 : (s.articles.length + 1) % 50 = 0
    · simp [h1, h2]
    · simp [h1, h2]

/-- A state whose in-memory collection is empty while the output file
holds eight characters of earlier contents. -/
def stateC6 : CrawlState :=
  { queue := []
    visited := []
    articles := []
    file := some "ABCDEFGH"
    fetchLog := []
    saveCalls := 0 }

/-- C6: a checkpoint does not replace the file's contents with the
serialization of the collection.  With an empty collection and a file
holding "ABCDEFGH", `save_json` writes the two characters "[]" at
position 0 and — because mode 'r+' never truncates — leaves the stale
tail, producing "[]CDEFGH" instead of "[]". -/
theorem save_json_stale_tail :
    (save_json stateC6).file = some "[]CDEFGH"
    ∧ (save_json stateC6).file ≠ some (serializeArticles (save_json stateC6).articles) := by
  refine ⟨by rfl, ?_⟩
  intro h
  have : ("[]CDEFGH" : String) = "[]" := by
    have h1 : (save_json stateC6).file = some "[]CDEFGH" := by rfl
    have h2 : serializeArticles (save_json stateC6).articles = "[]" := by rfl
    rw [h1, h2] at h
    exact Option.some.inj h
  exact absurd (congrArg String.toList this) (by decide)

/-- Model of `urllib.parse.urljoin(base, href)` for the cases the claims
exercise: an absolute href (one containing `"://"`) is returned unchanged;
a root-relative href is appended to the base's scheme and authority; any
other href replaces the last segment of the base's path (dot-segment and
query/fragment resolution of the stdlib routine, an external collaborator,
is not modelled — no claim depends on it). -/
def urljoin (base href : String) : String :=
  if strContains href "://" then href
  else if href.toList.head? = some '/' then
    match dropThroughSub "://".toList base.toList with
    | none => href
    | some rest =>
      String.mk (base.toList.take (base.toList.length - rest.length))
        ++ netloc base ++ href
  else
    String.mk ((base.toList.reverse.dropWhile (fun c => !(c == '/'))).reverse) ++ href

/-- `NewsCrawler.extract_links` (src/main.py lines 175-182): resolve each
href against the page URL, keep those accepted by `is_valid_article_url`,
as a set (modelled as a duplicate-free list in first-seen order). -/
def extract_links (soup : Soup) (base : String) : List String :=
  soup.links.foldl
    (fun acc h =>
      let u := urljoin base h
      if is_valid_article_url u then insertSet acc u else acc)
    []

/-- `self.queue.update(new_links - self.visited_urls)` (src/main.py line
205): add each discovered link that is not in the visited set to the
queue set. -/
def queueUpdate (q : List String) (links visited : List String) : List String :=
  links.foldl (fun acc u => if u ∈ visited then acc else insertSet acc u) q

/-- The successful-fetch tail of one loop iteration (src/main.py lines
199-207), starting from the state `s` in which the fetch was already
logged: store the record, enqueue the new links minus the visited set,
then mark the current URL visited (in this order). -/
def visitAfterSuccess (s : CrawlState) (url : String) (soup : Soup)
    (art : Article) : CrawlState :=
  let s3 := save_article s art
  let s4 : CrawlState :=
    { s3 with queue := queueUpdate s3.queue (extract_links soup url) s3.visited }
  { s4 with visited := s4.visited ++ [url] }

/-- Outcome of one iteration of the crawl loop body: either the loop
continues with a new state, or an exception other than
`requests.RequestException` escaped the inner `try` (carrying the state at
the moment it was raised). -/
inductive IterOut where
  | stepped (s : CrawlState)
  | raised (s : CrawlState) (e : String)
deriving DecidableEq, Repr

/-- One iteration of the crawl loop body (src/main.py lines 188-212),
entered with a non-empty queue: pop the element of the queue chosen by the
oracle index `c` (Python's `set.pop` removes an arbitrary element), skip
it if already visited; otherwise call the transport (recorded in
`fetchLog`); a transport failure is caught, logged and the loop continues;
on success the record is extracted (which can raise, see `extract_date`),
stored, links are enqueued and the URL is marked visited. -/
def crawlIter (fetch : String → Option Soup) (iso : String → Option String)
    (now : String) (s : CrawlState) (c : Nat) : IterOut :=
  if s.queue.getD (c % s.queue.length) "" ∈ s.visited then
    IterOut.stepped { s with queue := s.queue.eraseIdx (c % s.queue.length) }
  else
    match fetch (s.queue.getD (c % s.queue.length) "") with
    | none => IterOut.stepped
        { s with queue := s.queue.eraseIdx (c % s.queue.length)
                 fetchLog := s.fetchLog ++ [s.queue.getD (c % s.queue.length) ""] }
    | some soup =>
      match extract_article_data iso now (s.queue.getD (c % s.queue.length) "") soup with
      | Except.error e => IterOut.raised
          { s with queue := s.queue.eraseIdx (c % s.queue.length)
                   fetchLog := s.fetchLog ++ [s.queue.getD (c % s.queue.length) ""] } e
      | Except.ok art => IterOut.stepped
          (visitAfterSuccess
            { s with queue := s.queue.eraseIdx (c % s.queue.length)
                     fetchLog := s.fetchLog ++ [s.queue.getD (c % s.queue.length) ""] }
            (s.queue.getD (c % s.queue.length) "") soup art)

/-- `NewsCrawler.crawl` (src/main.py lines 184-216): run the loop while
the queue is non-empty and fewer than `maxPages` URLs are visited, one
oracle index per iteration; the `try/finally` guarantees `save_json` runs
on every exit — normal termination, oracle exhaustion (modelling an
operator interrupt mid-run), or an exception escaping the loop body, which
is re-raised (the second component of the result). -/
def crawlRun (fetch : String → Option Soup) (iso : String → Option String)
    (now : String) (maxPages : Nat) :
    List Nat → CrawlState → CrawlState × Option String
  | [], s => (save_json s, none)
  | c :: cs, s =>
    if s.queue.length = 0 ∨ maxPages ≤ s.visited.length then (save_json s, none)
    else
      match crawlIter fetch iso now s c with
      | IterOut.stepped s1 => crawlRun fetch iso now maxPages cs s1
      | IterOut.raised s1 e => (save_json s1, some e)

/-- C4: on every exit of `crawlRun` — queue exhaustion, page cap,
interruption of the oracle, or an exception escaping the loop body and
being re-raised — the returned state is `save_json` applied to the state
the loop last held, whatever the collection's size, and that final flush
is invoked (the `save_json` call count grows by one at the exit). -/
theorem crawl_flush_on_every_exit (fetch : String → Option Soup)
    (iso : String → Option String) (now : String) (maxPages : Nat)
    (choices : List Nat) (s : CrawlState) :
    ∃ s1 : CrawlState,
      (crawlRun fetch iso now maxPages choices s).1 = save_json s1
      ∧ (crawlRun fetch iso now maxPages choices s).1.saveCalls = s1.saveCalls + 1
      ∧ (crawlRun fetch iso now maxPages choices s).1.articles = s1.articles := by
  induction choices generalizing s with
  | nil => exact ⟨s, rfl, save_json_saveCalls s, save_json_articles s⟩
  | cons c cs ih =>
    unfold crawlRun
    by_cases h : s.queue.length = 0 ∨ maxPages ≤ s.visited.length
    · rw [if_pos h]
      exact ⟨s, rfl, save_json_saveCalls s, save_json_articles s⟩
    · rw [if_neg h]
      cases hit : crawlIter fetch iso now s c with
      | stepped s1 => exact ih s1
      | raised s1 e => exact ⟨s1, rfl, save_json_saveCalls s1, save_json_articles s1⟩

@[simp] theorem visitAfterSuccess_fetchLog (s : CrawlState) (url : String)
    (soup : Soup) (art : Article) :
    (visitAfterSuccess s url soup art).fetchLog = s.fetchLog := by
  simp [visitAfterSuccess]

@[simp] theorem visitAfterSuccess_visited (s : CrawlState) (url : String)
    (soup : Soup) (art : Article) :
    (visitAfterSuccess s url soup art).visited = s.visited ++ [url] := by
  simp [visitAfterSuccess]

/-- Iteration computation: the popped URL is already visited — it is
discarded, nothing is fetched. -/
theorem crawlIter_eq_of_visited (fetch : String → Option Soup)
    (iso : String → Option String) (now : String) (s : CrawlState) (c : Nat)
    (hv : s.queue.getD (c % s.queue.length) "" ∈ s.visited) :
    crawlIter fetch iso now s c
      = IterOut.stepped { s with queue := s.queue.eraseIdx (c % s.queue.length) } := by
  unfold crawlIter
  rw [if_pos hv]

/-- Iteration computation: the popped URL is new and its fetch raises a
transport error — the error is caught, the URL is logged as fetched,
removed from the queue, NOT added to the visited set, no record is
produced, and the loop continues. -/
theorem crawlIter_eq_of_fetch_failed (fetch : String → Option Soup)
    (iso : String → Option String) (now : String) (s : CrawlState) (c : Nat)
    (hv : s.queue.getD (c % s.queue.length) "" ∉ s.visited)
    (hf : fetch (s.queue.getD (c % s.queue.length) "") = none) :
    crawlIter fetch iso now s c
      = IterOut.stepped
          { s with queue := s.queue.eraseIdx (c % s.queue.length)
                   fetchLog := s.fetchLog ++ [s.queue.getD (c % s.queue.length) ""] } := by
  unfold crawlIter
  simp only [if_neg hv, hf]

/-- Iteration computation: the popped URL is new, its fetch succeeds and
extraction returns a record. -/
theorem crawlIter_eq_of_success (fetch : String → Option Soup)
    (iso : String → Option String) (now : String) (s : CrawlState) (c : Nat)
    (hv : s.queue.getD (c % s.queue.length) "" ∉ s.visited)
    (soup : Soup) (hf : fetch (s.queue.getD (c % s.queue.length) "") = some soup)
    (art : Article)
    (he : extract_article_data iso now (s.queue.getD (c % s.queue.length) "") soup
            = Except.ok art) :
    crawlIter fetch iso now s c
      = IterOut.stepped
          (visitAfterSuccess
            { s with queue := s.queue.eraseIdx (c % s.queue.length)
                     fetchLog := s.fetchLog ++ [s.queue.getD (c % s.queue.length) ""] }
            (s.queue.getD (c % s.queue.length) "") soup art) := by
  unfold crawlIter
  simp only [if_neg hv, hf, he]

/-- Iteration computation: the popped URL is new, its fetch succeeds and
extraction raises (the uncaught AttributeError of `extract_date`). -/
theorem crawlIter_eq_of_raised (fetch : String → Option Soup)
    (iso : String → Option String) (now : String) (s : CrawlState) (c : Nat)
    (hv : s.queue.getD (c % s.queue.length) "" ∉ s.visited)
    (soup : Soup) (hf : fetch (s.queue.getD (c % s.queue.length) "") = some soup)
    (e : String)
    (he : extract_article_data iso now (s.queue.getD (c % s.queue.length) "") soup
            = Except.error e) :
    crawlIter fetch iso now s c
      = IterOut.raised
          { s with queue := s.queue.eraseIdx (c % s.queue.length)
                   fetchLog := s.fetchLog ++ [s.queue.getD (c % s.queue.length) ""] } e := by
  unfold crawlIter
  simp only [if_neg hv, hf, he]

/-- Exhaustive description of one loop iteration, as far as the fetch log
and the visited set are concerned: either the popped URL was already
visited (nothing fetched, nothing marked), or it was fetched after having
never been visited — with the failure branch leaving the visited set
unchanged, the success branch appending the URL to it, and the raising
branch (extraction error) leaving it unchanged. -/
theorem crawlIter_shape (fetch : String → Option Soup)
    (iso : String → Option String) (now : String) (s : CrawlState) (c : Nat) :
    (∃ s1, crawlIter fetch iso now s c = IterOut.stepped s1
        ∧ s1.fetchLog = s.fetchLog ∧ s1.visited = s.visited)
    ∨ (∃ u s1, u ∉ s.visited ∧ fetch u = none
        ∧ crawlIter fetch iso now s c = IterOut.stepped s1
        ∧ s1.fetchLog = s.fetchLog ++ [u] ∧ s1.visited = s.visited)
    ∨ (∃ u s1, u ∉ s.visited
        ∧ crawlIter fetch iso now s c = IterOut.stepped s1
        ∧ s1.fetchLog = s.fetchLog ++ [u] ∧ s1.visited = s.visited ++ [u])
    ∨ (∃ u s1 e, u ∉ s.visited
        ∧ crawlIter fetch iso now s c = IterOut.raised s1 e
        ∧ s1.fetchLog = s.fetchLog ++ [u] ∧ s1.visited = s.visited) := by
  by_cases hv : s.queue.getD (c % s.queue.length) "" ∈ s.visited
  · exact Or.inl ⟨_, crawlIter_eq_of_visited fetch iso now s c hv, rfl, rfl⟩
  · cases hf : fetch (s.queue.getD (c % s.queue.length) "") with
    | none =>
      exact Or.inr (Or.inl
        ⟨_, _, hv, hf, crawlIter_eq_of_fetch_failed fetch iso now s c hv hf, rfl, rfl⟩)
    | some soup =>
      cases he : extract_article_data iso now (s.queue.getD (c % s.queue.length) "") soup with
      | error e =>
        exact Or.inr (Or.inr (Or.inr
          ⟨_, _, e, hv, crawlIter_eq_of_raised fetch iso now s c hv soup hf e he, rfl, rfl⟩))
      | ok art =>
        refine Or.inr (Or.inr (Or.inl
          ⟨_, _, hv, crawlIter_eq_of_success fetch iso now s c hv soup hf art he, ?_, ?_⟩)) <;>
          simp

/-- Counting after appending one different element changes nothing. -/
theorem count_append_single_ne {v u : String} (l : List String) (h : v ≠ u) :
    (l ++ [v]).count u = l.count u := by
  simp [List.count_append, List.count_singleton', h]

/-- Counting after appending the element itself adds one. -/
theorem count_append_single_self (l : List String) (v : String) :
    (l ++ [v]).count v = l.count v + 1 := by
  simp [List.count_append, List.count_singleton']

/-- The invariant behind the no-duplicate-fetch guarantee for URLs whose
fetch succeeds: such a URL appears at most once in the fetch log, and once
it has been fetched it is in the visited set. -/
def FetchInvariant (fetch : String → Option Soup) (s : CrawlState) : Prop :=
  ∀ u, fetch u ≠ none →
    s.fetchLog.count u ≤ 1 ∧ (1 ≤ s.fetchLog.count u → u ∈ s.visited)

/-- One iteration preserves `FetchInvariant` (or ends the run with the
fetch count still bounded). -/
theorem crawlIter_fetchInvariant (fetch : String → Option Soup)
    (iso : String → Option String) (now : String) (s : CrawlState) (c : Nat)
    (hinv : FetchInvariant fetch s) :
    (∀ s1, crawlIter fetch iso now s c = IterOut.stepped s1 → FetchInvariant fetch s1)
    ∧ (∀ s1 e, crawlIter fetch iso now s c = IterOut.raised s1 e →
        ∀ u, fetch u ≠ none → s1.fetchLog.count u ≤ 1) := by
  rcases crawlIter_shape fetch iso now s c with
    ⟨s1, heq, hfl, hvis⟩ | ⟨v, s1, hnv, hfn, heq, hfl, hvis⟩ |
    ⟨v, s1, hnv, heq, hfl, hvis⟩ | ⟨v, s1, e, hnv, heq, hfl, hvis⟩
  · refine ⟨fun s2 h2 => ?_, fun s2 e h2 => ?_⟩
    · rw [heq] at h2
      cases h2
      intro u hu
      rw [hfl, hvis]
      exact hinv u hu
    · rw [heq] at h2
      cases h2
  · refine ⟨fun s2 h2 => ?_, fun s2 e h2 => ?_⟩
    · rw [heq] at h2
      cases h2
      intro u hu
      have hne : v ≠ u := fun hvu => hu (hvu ▸ hfn)
      rw [hfl, hvis, count_append_single_ne _ hne]
      exact hinv u hu
    · rw [heq] at h2
      cases h2
  · refine ⟨fun s2 h2 => ?_, fun s2 e h2 => ?_⟩
    · rw [heq] at h2
      cases h2
      intro u hu
      rw [hfl, hvis]
      by_cases hvu : v = u
      · subst hvu
        have h0 : s.fetchLog.count v = 0 := by
          rcases Nat.eq_zero_or_pos (s.fetchLog.count v) with h | h
          · exact h
          · exact absurd ((hinv v hu).2 h) hnv
        rw [count_append_single_self, h0]
        exact ⟨le_refl 1, fun _ => List.mem_append_right _ (List.mem_singleton.mpr rfl)⟩
      · rw [count_append_single_ne _ hvu]
        exact ⟨(hinv u hu).1, fun h1 => List.mem_append_left _ ((hinv u hu).2 h1)⟩
    · rw [heq] at h2
      cases h2
  · refine ⟨fun s2 h2 => ?_, fun s2 e2 h2 => ?_⟩
    · rw [heq] at h2
      cases h2
    · rw [heq] at h2
      cases h2
      intro u hu
      rw [hfl]
      by_cases hvu : v = u
      · subst hvu
        have h0 : s.fetchLog.count v = 0 := by
          rcases Nat.eq_zero_or_pos (s.fetchLog.count v) with h | h
          · exact h
          · exact absurd ((hinv v hu).2 h) hnv
        rw [count_append_single_self, h0]
      · rw [count_append_single_ne _ hvu]
        exact (hinv u hu).1

/-- A whole run keeps the fetch count of fetch-succeeding URLs at most 1,
from any state satisfying the invariant. -/
theorem crawlRun_fetch_bound (fetch : String → Option Soup)
    (iso : String → Option String) (now : String) (maxPages : Nat)
    (choices : List Nat) (s : CrawlState) (hinv : FetchInvariant fetch s)
    (u : String) (hu : fetch u ≠ none) :
    (crawlRun fetch iso now maxPages choices s).1.fetchLog.count u ≤ 1 := by
  induction choices generalizing s with
  | nil => simpa [crawlRun] using (hinv u hu).1
  | cons c cs ih =>
    unfold crawlRun
    by_cases h : s.queue.length = 0 ∨ maxPages ≤ s.visited.length
    · rw [if_pos h]
      simpa using (hinv u hu).1
    · rw [if_neg h]
      cases hit : crawlIter fetch iso now s c with
      | stepped s1 =>
        exact ih s1 ((crawlIter_fetchInvariant fetch iso now s c hinv).1 s1 hit)
      | raised s1 e =>
        simpa using (crawlIter_fetchInvariant fetch iso now s c hinv).2 s1 e hit u hu

/-- C1 (amended): over any run of the crawl loop from the crawler's
initial state, a URL whose fetch succeeds is passed to the transport at
most once (it is marked visited in the same iteration and the pop-time
check discards it afterwards).  A URL whose fetch fails is not marked
visited and can be fetched again when rediscovered as a link — see the
counterexample. -/
theorem successful_fetch_at_most_once (fetch : String → Option Soup)
    (iso : String → Option String) (now : String) (maxPages : Nat)
    (choices : List Nat) (seeds : List String) (file0 : Option String)
    (u : String) (hu : fetch u ≠ none) :
    (crawlRun fetch iso now maxPages choices
        (initState seeds file0)).1.fetchLog.count u ≤ 1 := by
  refine crawlRun_fetch_bound fetch iso now maxPages choices (initState seeds file0)
    (fun v _ => ?_) u hu
  simp [initState]

/-- A transport that fails on `urlA` and returns, for `urlB`, a page whose
only link is `urlA`. -/
def urlA : String := "https://www.novinky.cz/clanek/a"

/-- The second seed URL of the duplicate-fetch scenario. -/
def urlB : String := "https://www.novinky.cz/clanek/b"

/-- The page served at `urlB`: no extractable fields, one link to
`urlA`. -/
def soupB : Soup := { selectorResults := [], imgCount := 0, links := [urlA] }

/-- Transport stub: `urlB` succeeds, everything else (in particular
`urlA`) raises a transport error. -/
def fetchAB : String → Option Soup :=
  fun u => if u == urlB then some soupB else none

/-- C1 counterexample: a complete run (queue drained, no exception) in
which `urlA` is passed to the transport twice.  Its first fetch fails, so
it is not marked visited; fetching `urlB` succeeds and rediscovers `urlA`
as a link, which re-enters the queue and is fetched a second time.  The
fetch log of the run is `[urlA, urlB, urlA]`. -/
theorem failed_url_fetched_twice_cex :
    (crawlRun fetchAB iso0 "T0" 500000 [0, 0, 0, 0]
        (initState [urlA, urlB] none)).1.fetchLog = [urlA, urlB, urlA]
    ∧ (crawlRun fetchAB iso0 "T0" 500000 [0, 0, 0, 0]
        (initState [urlA, urlB] none)).1.fetchLog.count urlA = 2
    ∧ (crawlRun fetchAB iso0 "T0" 500000 [0, 0, 0, 0]
        (initState [urlA, urlB] none)).1.queue = []
    ∧ (crawlRun fetchAB iso0 "T0" 500000 [0, 0, 0, 0]
        (initState [urlA, urlB] none)).2 = none := by
  refine ⟨?_, ?_, ?_, ?_⟩ <;> rfl

/-- C1 witness for `successful_fetch_at_most_once`: in the concrete
scenario, `urlB`'s fetch succeeds and `urlB` is fetched exactly at most
once over the complete run. -/
theorem successful_fetch_at_most_once_witness :
    (crawlRun fetchAB iso0 "T0" 500000 [0, 0, 0, 0]
        (initState [urlA, urlB] none)).1.fetchLog.count urlB ≤ 1 :=
  successful_fetch_at_most_once fetchAB iso0 "T0" 500000 [0, 0, 0, 0]
    [urlA, urlB] none urlB (by decide)

/-- C2 (amended): when the popped URL is not yet visited and its fetch
raises a transport error, the iteration logs the fetch, removes the URL
from the queue and continues with the next iteration, leaving the visited
set, the collected articles, the output file and the checkpoint count all
unchanged — in particular the URL is NOT added to the visited set, so it
can be fetched again if it is later re-offered. -/
theorem transport_failure_skips_and_continues (fetch : String → Option Soup)
    (iso : String → Option String) (now : String) (s : CrawlState) (c : Nat)
    (hv : s.queue.getD (c % s.queue.length) "" ∉ s.visited)
    (hf : fetch (s.queue.getD (c % s.queue.length) "") = none) :
    crawlIter fetch iso now s c
      = IterOut.stepped
          { s with queue := s.queue.eraseIdx (c % s.queue.length)
                   fetchLog := s.fetchLog ++ [s.queue.getD (c % s.queue.length) ""] } :=
  crawlIter_eq_of_fetch_failed fetch iso now s c hv hf

/-- C2 witness: concrete instance of
`transport_failure_skips_and_continues` — popping the failing `urlA` from
the single-element queue leaves visited and articles empty and continues.
-/
theorem transport_failure_skips_and_continues_witness :
    crawlIter fetchAB iso0 "T0" (initState [urlA] none) 0
      = IterOut.stepped
          { initState [urlA] none with queue := [], fetchLog := [urlA] } := by
  have h := transport_failure_skips_and_continues fetchAB iso0 "T0"
    (initState [urlA] none) 0 (by decide) (by decide)
  simpa using h

/-- C2 counterexample: a complete run in which `urlA`'s fetch fails, after
which `urlA` is NOT in the visited set (the claim states it is added to
the visited set and never retried; the code's except-branch only logs). -/
theorem transport_failure_not_marked_visited_cex :
    (crawlRun fetchAB iso0 "T0" 500000 [0, 0] (initState [urlA] none)).1.fetchLog = [urlA]
    ∧ (crawlRun fetchAB iso0 "T0" 500000 [0, 0] (initState [urlA] none)).1.visited = []
    ∧ (crawlRun fetchAB iso0 "T0" 500000 [0, 0] (initState [urlA] none)).1.queue = []
    ∧ (crawlRun fetchAB iso0 "T0" 500000 [0, 0] (initState [urlA] none)).2 = none := by
  refine ⟨?_, ?_, ?_, ?_⟩ <;> rfl

/-- C9 (amended): a URL that is in the visited set is never fetched again
by the rest of the run — the pop-time check discards it — even though the
queue can transiently contain visited URLs (see the counterexample: a page
linking to its own URL puts that URL in both sets). -/
theorem visited_url_never_refetched (fetch : String → Option Soup)
    (iso : String → Option String) (now : String) (maxPages : Nat)
    (choices : List Nat) (s : CrawlState) (u : String) (h : u ∈ s.visited) :
    (crawlRun fetch iso now maxPages choices s).1.fetchLog.count u
      = s.fetchLog.count u := by
  induction choices generalizing s with
  | nil => simp [crawlRun]
  | cons c cs ih =>
    unfold crawlRun
    by_cases hterm : s.queue.length = 0 ∨ maxPages ≤ s.visited.length
    · rw [if_pos hterm]
      simp
    · rw [if_neg hterm]
      rcases crawlIter_shape fetch iso now s c with
        ⟨s1, heq, hfl, hvis⟩ | ⟨v, s1, hnv, hfn, heq, hfl, hvis⟩ |
        ⟨v, s1, hnv, heq, hfl, hvis⟩ | ⟨v, s1, e, hnv, heq, hfl, hvis⟩
      · rw [heq]
        rw [show s.fetchLog.count u = s1.fetchLog.count u by rw [hfl]]
        exact ih s1 (hvis ▸ h)
      · rw [heq]
        have hne : v ≠ u := fun hvu => hnv (hvu ▸ h)
        rw [show s.fetchLog.count u = s1.fetchLog.count u by
          rw [hfl, count_append_single_ne _ hne]]
        exact ih s1 (hvis ▸ h)
      · rw [heq]
        have hne : v ≠ u := fun hvu => hnv (hvu ▸ h)
        rw [show s.fetchLog.count u = s1.fetchLog.count u by
          rw [hfl, count_append_single_ne _ hne]]
        refine ih s1 ?_
        rw [hvis]
        exact List.mem_append_left _ h
      · rw [heq]
        have hne : v ≠ u := fun hvu => hnv (hvu ▸ h)
        simp [hfl, count_append_single_ne _ hne]

/-- The self-linking page: the document served at `urlS` contains a link
to `urlS` itself. -/
def urlS : String := "https://www.novinky.cz/clanek/s"

/-- The page at `urlS`, whose only link is `urlS` itself. -/
def soupS : Soup := { selectorResults := [], imgCount := 0, links := [urlS] }

/-- Transport stub for the self-link scenario. -/
def fetchS : String → Option Soup :=
  fun u => if u == urlS then some soupS else none

/-- The record extracted from the (field-less) page at `urlS`. -/
def artS : Article :=
  { url := urlS
    title := "Nepodařilo se najít nadpis"
    category := "Kategorie nenalezena"
    comments_count := 0
    images_count := 0
    content := "Obsah nenalezen"
    created_at := "T0"
    source_website := "www.novinky.cz" }

/-- The state after processing `urlS`: `urlS` sits in the queue AND in the
visited set simultaneously. -/
def stateS : CrawlState :=
  { queue := [urlS]
    visited := [urlS]
    articles := [artS]
    file := none
    fetchLog := [urlS]
    saveCalls := 0 }

/-- C9 counterexample: after one complete iteration on the self-linking
page — an observation point between iterations of the loop — the pending
queue and the visited set both contain `urlS`: the code enqueues the
discovered links (line 205) before adding the current URL to
`visited_urls` (line 207), so `pending ∩ visited ≠ ∅`. -/
theorem queue_visited_not_disjoint_cex :
    crawlIter fetchS iso0 "T0" (initState [urlS] none) 0 = IterOut.stepped stateS
    ∧ urlS ∈ stateS.queue ∧ urlS ∈ stateS.visited := by
  refine ⟨by rfl, ?_, ?_⟩ <;> decide

/-- C9 witness for `visited_url_never_refetched`: continuing the run from
the intersecting state `stateS`, the already-visited `urlS` is popped,
discarded, and never fetched again — the fetch count stays 1. -/
theorem visited_url_never_refetched_witness :
    (crawlRun fetchS iso0 "T0" 500000 [0, 0] stateS).1.fetchLog.count urlS
      = stateS.fetchLog.count urlS :=
  visited_url_never_refetched fetchS iso0 "T0" 500000 [0, 0] stateS urlS (by decide)
